import Mathlib

/-!
Shallow embedding of the logging utility module of the repository
(`src/csa/utils/logger.py`): the stale-log reaper `cleanup_old_logs`,
the `CustomFormatter`, and the configurator `setup_logger` with its
public entry point `get_logger`.

Filesystem effects are modelled explicitly: a filesystem is a list of
existing directories together with a list of file entries (directory,
name, last-modified time in whole seconds).  Deletion that may fail
(`Path.unlink` wrapped in a bare `except`) is modelled by an oracle
`unlinkOk : FileEntry → Bool` saying which deletions succeed.  The two
clock reads of the source (`time.time()` for the reaper's cutoff and
`datetime.now()` for the dated file name) are explicit parameters.
`setup_logger` additionally records the ordered trace of filesystem
operations it performs, so that sequencing claims can be stated.
-/

namespace LoggerSpec

/-- Numeric severity constants of the Python `logging` module. -/
def DEBUG : Nat := 10

def INFO : Nat := 20

def WARNING : Nat := 30

def ERROR : Nat := 40

def CRITICAL : Nat := 50

/-- A file on disk: its containing directory, its name inside that
directory, and its last-modified time in whole seconds. -/
structure FileEntry where
  dir : String
  name : String
  mtime : Int
deriving DecidableEq, Repr

/-- A filesystem state: the set of existing directories and the files. -/
structure FS where
  dirs : List String
  files : List FileEntry
deriving DecidableEq, Repr

/-- Matching of a file name against the glob pattern `*.log` used by
`Path(log_dir).glob("*.log")`: the star matches any (possibly empty)
sequence of characters of the name, so a name matches exactly when it
ends with `.log`. -/
def matchesLogGlob (name : String) : Bool :=
  name.endsWith ".log"

/-- Condition under which `cleanup_old_logs` attempts to delete a file:
it lies in the scanned directory, matches the `*.log` glob, and its
last-modified time is strictly below the cutoff. -/
def isStaleCandidate (log_dir : String) (cutoff : Int) (f : FileEntry) : Bool :=
  f.dir == log_dir && matchesLogGlob f.name && decide (f.mtime < cutoff)

/-- Embedding of `cleanup_old_logs(log_dir, days=7)`.  If the directory
does not exist the function returns at once.  Otherwise every `*.log`
file of the directory whose mtime is strictly below
`now - days*24*60*60` is unlinked; a failing unlink (oracle returns
`false`) is swallowed by the bare `except` and the file survives. -/
def cleanup_old_logs (fs : FS) (unlinkOk : FileEntry → Bool) (now : Int)
    (log_dir : String) (days : Int := 7) : FS :=
  if log_dir ∈ fs.dirs then
    let cutoff := now - days * 24 * 60 * 60
    { fs with
      files := fs.files.filter fun f =>
        !(isStaleCandidate log_dir cutoff f && unlinkOk f) }
  else
    fs

/-- The `LEVEL_MAP` table of `CustomFormatter`: long level name to its
single-character display code. -/
def LEVEL_MAP : List (String × String) :=
  [("DEBUG", "D"), ("INFO", "I"), ("WARNING", "W"), ("ERROR", "E"),
   ("CRITICAL", "C")]

/-- A log record as far as the formatter observes it: the local wall
time of creation broken into fields (with the millisecond part already
truncated to an integer, as `int(record.msecs)` does), the level name,
and the message. -/
structure LogRecord where
  year : Nat
  month : Nat
  day : Nat
  hour : Nat
  minute : Nat
  second : Nat
  msecs : Nat
  levelname : String
  message : String
deriving DecidableEq, Repr

/-- Zero-padding of a decimal number to a minimum width, as produced by
`strftime` field specifiers and by the `:03d` format of the millisecond
part. -/
def padNum (w n : Nat) : String :=
  let s := toString n
  String.mk (List.replicate (w - s.length) '0') ++ s

/-- Embedding of `CustomFormatter.formatTime` as instantiated by
`setup_logger`: the record's creation time rendered with the date
format `%Y-%m-%d %H:%M:%S`, then `.` and the millisecond part padded
to three digits. -/
def formatTime (r : LogRecord) : String :=
  padNum 4 r.year ++ "-" ++ padNum 2 r.month ++ "-" ++ padNum 2 r.day ++ " " ++
    padNum 2 r.hour ++ ":" ++ padNum 2 r.minute ++ ":" ++ padNum 2 r.second ++
    "." ++ padNum 3 r.msecs

/-- Embedding of the `levelname_short` computation of
`CustomFormatter.format`: look the level name up in `LEVEL_MAP`,
falling back to the first character of the level name. -/
def levelnameShort (levelname : String) : String :=
  (LEVEL_MAP.lookup levelname).getD (levelname.take 1)

/-- Rendering of one record through `CustomFormatter` with the format
string `%(asctime)s [%(levelname_short)s] : %(message)s` that
`setup_logger` installs. -/
def formatRecord (r : LogRecord) : String :=
  formatTime r ++ " [" ++ levelnameShort r.levelname ++ "] : " ++ r.message

/-- Configuration of a formatter object as handed to handlers: the
format template and the date format. -/
structure Formatter where
  fmt : String
  datefmt : Option String
deriving DecidableEq, Repr

/-- The one `CustomFormatter` instance `setup_logger` builds. -/
def customFormatter : Formatter :=
  { fmt := "%(asctime)s [%(levelname_short)s] : %(message)s",
    datefmt := some "%Y-%m-%d %H:%M:%S" }

/-- A handler (sink) attached to a logger: either the console
`StreamHandler` or a `FileHandler` with its path, open mode and
encoding; each carries its own threshold and formatter. -/
inductive Sink where
  | console (level : Nat) (fmt : Formatter)
  | file (path : String) (mode : String) (encoding : String)
      (level : Nat) (fmt : Formatter)
deriving DecidableEq, Repr

/-- Recognizer for console sinks. -/
def isConsoleSink : Sink → Bool
  | Sink.console _ _ => true
  | _ => false

/-- Recognizer for file sinks. -/
def isFileSink : Sink → Bool
  | Sink.file _ _ _ _ _ => true
  | _ => false

/-- The observable state of a named logger in the process-wide
registry: its severity threshold, its attached handlers in order, and
its propagation flag. -/
structure Logger where
  level : Nat
  handlers : List Sink
  propagate : Bool
deriving DecidableEq, Repr

/-- The `log_levels` dictionary of `setup_logger`. -/
def log_levels : List (String × Nat) :=
  [("DEBUG", DEBUG), ("INFO", INFO), ("WARNING", WARNING), ("ERROR", ERROR),
   ("CRITICAL", CRITICAL)]

/-- Whitespace as recognized by Python's default `str.strip` on ASCII
text: space, tab, newline, carriage return, vertical tab, form feed. -/
def isPySpace (c : Char) : Bool :=
  c == ' ' || c == '\t' || c == '\n' || c == '\r' ||
    c == Char.ofNat 11 || c == Char.ofNat 12

/-- Model of Python `str.strip()`: surrounding whitespace removed from
both ends. -/
def pyStrip (s : String) : String :=
  String.mk (((s.data.dropWhile isPySpace).reverse.dropWhile isPySpace).reverse)

/-- Model of Python `str.upper()`: every character upper-cased. -/
def pyUpper (s : String) : String :=
  String.mk (s.data.map Char.toUpper)

/-- Resolution of the severity threshold from the `LOG_LEVEL`
environment variable:
`os.getenv("LOG_LEVEL", "INFO").strip().upper()` followed by
`log_levels.get(log_level_str, logging.INFO)`. -/
def resolveLogLevel (env : Option String) : Nat :=
  let log_level_str := pyUpper (pyStrip (env.getD "INFO"))
  (log_levels.lookup log_level_str).getD INFO

/-- Python truthiness of the optional `command_name` argument: `None`
and the empty string are falsy. -/
def truthy : Option String → Bool
  | none => false
  | some s => !(s == "")

/-- A date as read from `datetime.now()` for the file-name stamp. -/
structure DateTime where
  year : Nat
  month : Nat
  day : Nat
deriving DecidableEq, Repr

/-- Rendering of `datetime.now().strftime("%Y%m%d")`. -/
def strftimeYMD (d : DateTime) : String :=
  padNum 4 d.year ++ padNum 2 d.month ++ padNum 2 d.day

/-- One filesystem operation performed by `setup_logger`, in program
order: `os.makedirs`, the call to the stale-log reaper, or the opening
of the day's log file by the `FileHandler` constructor. -/
inductive FsEvent where
  | makedirs (d : String)
  | cleanup (d : String) (days : Int)
  | openFile (path : String) (mode : String) (encoding : String)
deriving DecidableEq, Repr

/-- Embedding of `os.makedirs(log_dir, exist_ok=True)`. -/
def makedirs (fs : FS) (d : String) : FS :=
  if d ∈ fs.dirs then fs else { fs with dirs := d :: fs.dirs }

/-- Effect on the filesystem of opening a file in append mode: the file
is created (with the current time as mtime) when absent, and left alone
when present. -/
def touchFile (fs : FS) (dir name : String) (mtime : Int) : FS :=
  if fs.files.any fun f => f.dir == dir && f.name == name then fs
  else { fs with files := fs.files ++ [{ dir := dir, name := name, mtime := mtime }] }

/-- Result of one `setup_logger` call: the configured logger, the
filesystem after the call, and the ordered trace of filesystem
operations performed. -/
structure SetupResult where
  logger : Logger
  fs : FS
  trace : List FsEvent
deriving Repr

/-- Embedding of `setup_logger(name, command_name)`.  The logger
registry lookup `logging.getLogger(name)` is modelled by passing the
prior state `prev` of the named logger.  The two clock reads are the
parameters `nowEpoch` (`time.time()`, whole seconds) and `today`
(`datetime.now()`).  Steps, in source order: resolve the threshold from
the `LOG_LEVEL` environment value, set the logger level, clear any
existing handlers, attach the console handler with `customFormatter`;
when `command_name` is truthy, create the `logs` directory, run the
reaper with a seven-day window, then open `logs/{command}-{YYYYMMDD}.log`
in append mode with UTF-8 encoding and attach it as a second handler
with the same threshold and formatter; finally disable propagation. -/
def setup_logger (env : Option String) (prev : Logger)
    (command_name : Option String) (nowEpoch : Int) (today : DateTime)
    (fs : FS) (unlinkOk : FileEntry → Bool) : SetupResult :=
  let log_level := resolveLogLevel env
  let logger1 : Logger := { prev with level := log_level, handlers := [] }
  let console_handler := Sink.console log_level customFormatter
  let logger2 : Logger := { logger1 with handlers := logger1.handlers ++ [console_handler] }
  if truthy command_name then
    let c := command_name.getD ""
    let log_dir := "logs"
    let fs1 := makedirs fs log_dir
    let fs2 := cleanup_old_logs fs1 unlinkOk nowEpoch log_dir 7
    let log_filename := c ++ "-" ++ strftimeYMD today ++ ".log"
    let log_filepath := log_dir ++ "/" ++ log_filename
    let fs3 := touchFile fs2 log_dir log_filename nowEpoch
    let file_handler := Sink.file log_filepath "a" "utf-8" log_level customFormatter
    { logger := { logger2 with
        handlers := logger2.handlers ++ [file_handler]
        propagate := false }
      fs := fs3
      trace := [FsEvent.makedirs log_dir, FsEvent.cleanup log_dir 7,
                FsEvent.openFile log_filepath "a" "utf-8"] }
  else
    { logger := { logger2 with propagate := false }, fs := fs, trace := [] }

/-- Embedding of `get_logger(name, command_name)`: the source merely
returns `setup_logger(name, command_name)`. -/
def get_logger (env : Option String) (prev : Logger)
    (command_name : Option String) (nowEpoch : Int) (today : DateTime)
    (fs : FS) (unlinkOk : FileEntry → Bool) : SetupResult :=
  setup_logger env prev command_name nowEpoch today fs unlinkOk

/-! Concrete fixtures used by the witness theorems. -/

/-- A stale log file: far older than the cutoff of the scenarios below. -/
def fStale : FileEntry := { dir := "logs", name := "old.log", mtime := 0 }

/-- A second stale log file, used for the unlink-failure scenario. -/
def fStale2 : FileEntry := { dir := "logs", name := "old2.log", mtime := 100 }

/-- A log file exactly at the seven-day cutoff for `now = 864000`. -/
def fBoundary : FileEntry := { dir := "logs", name := "boundary.log", mtime := 259200 }

/-- A log file newer than the cutoff. -/
def fFresh : FileEntry := { dir := "logs", name := "new.log", mtime := 863999 }

/-- A stale file that does not match the `*.log` glob. -/
def fOther : FileEntry := { dir := "logs", name := "notes.txt", mtime := 0 }

/-- A populated `logs` directory. -/
def fsW : FS := { dirs := ["logs"], files := [fStale, fBoundary, fFresh, fOther] }

/-- A `logs` directory holding two stale log files. -/
def fsW2 : FS := { dirs := ["logs"], files := [fStale, fStale2] }

/-- An unlink oracle under which deleting `old.log` fails and every
other deletion succeeds. -/
def unlinkOkW : FileEntry → Bool := fun f => !(f.name == "old.log")

/-- An empty filesystem. -/
def fs0 : FS := { dirs := [], files := [] }

/-- A prior logger state with no handlers. -/
def L0 : Logger := { level := WARNING, handlers := [], propagate := true }

/-- The date 2024-01-15. -/
def d0 : DateTime := { year := 2024, month := 1, day := 15 }

/-- The record of the spec's formatting example: a WARNING record
created at local time 2024-01-15 10:30:00.123. -/
def recW : LogRecord :=
  { year := 2024, month := 1, day := 15, hour := 10, minute := 30, second := 0,
    msecs := 123, levelname := "WARNING", message := "msg" }

/-- C1: with every unlink succeeding, `cleanup_old_logs` on an existing
directory removes exactly the files of that directory that match the
`*.log` glob and whose mtime is strictly below `now - days*24*60*60`;
every other file — a matching file at or after the cutoff (boundary
included), a non-matching file, a file of another directory — is
retained, and the set of directories is untouched. -/
theorem cleanup_old_logs_deletes_exactly_stale (fs : FS) (now : Int)
    (log_dir : String) (days : Int) (hdir : log_dir ∈ fs.dirs) :
    (cleanup_old_logs fs (fun _ => true) now log_dir days).dirs = fs.dirs ∧
    (∀ f : FileEntry,
      f ∈ (cleanup_old_logs fs (fun _ => true) now log_dir days).files ↔
        f ∈ fs.files ∧
          ¬(f.dir = log_dir ∧ matchesLogGlob f.name = true ∧
            f.mtime < now - days * 24 * 60 * 60)) := by
  have hiff : ∀ g : FileEntry,
      isStaleCandidate log_dir (now - days * 24 * 60 * 60) g = true ↔
        g.dir = log_dir ∧ matchesLogGlob g.name = true ∧
          g.mtime < now - days * 24 * 60 * 60 := fun g => by
    simp [isStaleCandidate, and_assoc]
  unfold cleanup_old_logs
  rw [if_pos hdir]
  refine ⟨rfl, fun f => ?_⟩
  rw [← hiff f]
  simp only [List.mem_filter, Bool.and_true, Bool.not_eq_true']
  cases hx : isStaleCandidate log_dir (now - days * 24 * 60 * 60) f <;> simp [hx]

/-- Witness for C1, at a directory holding a stale file, a boundary
file, a fresh file and a non-matching file: the boundary file is
retained. -/
theorem cleanup_old_logs_deletes_exactly_stale_witness :
    (cleanup_old_logs fsW (fun _ => true) 864000 "logs" 7).dirs = fsW.dirs ∧
    (fBoundary ∈ (cleanup_old_logs fsW (fun _ => true) 864000 "logs" 7).files ↔
      fBoundary ∈ fsW.files ∧
        ¬(fBoundary.dir = "logs" ∧ matchesLogGlob fBoundary.name = true ∧
          fBoundary.mtime < 864000 - 7 * 24 * 60 * 60)) :=
  ⟨(cleanup_old_logs_deletes_exactly_stale fsW 864000 "logs" 7 (by decide)).1,
   (cleanup_old_logs_deletes_exactly_stale fsW 864000 "logs" 7 (by decide)).2 fBoundary⟩

/-- C6: on a directory that does not exist, `cleanup_old_logs` returns
the filesystem unchanged (and, being total, raises nothing). -/
theorem cleanup_old_logs_missing_dir (fs : FS) (unlinkOk : FileEntry → Bool)
    (now : Int) (log_dir : String) (days : Int) (hdir : log_dir ∉ fs.dirs) :
    cleanup_old_logs fs unlinkOk now log_dir days = fs := by
  unfold cleanup_old_logs
  rw [if_neg hdir]

/-- Witness for C6: the reaper on an empty filesystem. -/
theorem cleanup_old_logs_missing_dir_witness :
    cleanup_old_logs fs0 (fun _ => true) 864000 "logs" 7 = fs0 :=
  cleanup_old_logs_missing_dir fs0 (fun _ => true) 864000 "logs" 7 (by decide)

/-- C7: under an arbitrary unlink oracle, a file disappears exactly when
it is a stale candidate AND its unlink succeeds: every file whose
deletion fails survives, the failure does not stop the remaining
deletions, and the function returns normally (it is total). -/
theorem cleanup_old_logs_unlink_failure_ignored (fs : FS)
    (unlinkOk : FileEntry → Bool) (now : Int) (log_dir : String) (days : Int)
    (hdir : log_dir ∈ fs.dirs) :
    (cleanup_old_logs fs unlinkOk now log_dir days).dirs = fs.dirs ∧
    (∀ f : FileEntry,
      f ∈ (cleanup_old_logs fs unlinkOk now log_dir days).files ↔
        f ∈ fs.files ∧
          ¬(isStaleCandidate log_dir (now - days * 24 * 60 * 60) f = true ∧
            unlinkOk f = true)) := by
  unfold cleanup_old_logs
  rw [if_pos hdir]
  refine ⟨rfl, fun f => ?_⟩
  simp only [List.mem_filter, Bool.not_eq_true']
  cases hx : isStaleCandidate log_dir (now - days * 24 * 60 * 60) f <;>
    cases hy : unlinkOk f <;> simp [hx, hy]

/-- Witness for C7: with the unlink of `old.log` failing, `old.log`
survives the pass while the second stale file is still removed. -/
theorem cleanup_old_logs_unlink_failure_ignored_witness :
    (fStale ∈ (cleanup_old_logs fsW2 unlinkOkW 864000 "logs" 7).files ↔
      fStale ∈ fsW2.files ∧
        ¬(isStaleCandidate "logs" (864000 - 7 * 24 * 60 * 60) fStale = true ∧
          unlinkOkW fStale = true)) ∧
    (fStale2 ∈ (cleanup_old_logs fsW2 unlinkOkW 864000 "logs" 7).files ↔
      fStale2 ∈ fsW2.files ∧
        ¬(isStaleCandidate "logs" (864000 - 7 * 24 * 60 * 60) fStale2 = true ∧
          unlinkOkW fStale2 = true)) :=
  ⟨(cleanup_old_logs_unlink_failure_ignored fsW2 unlinkOkW 864000 "logs" 7
      (by decide)).2 fStale,
   (cleanup_old_logs_unlink_failure_ignored fsW2 unlinkOkW 864000 "logs" 7
      (by decide)).2 fStale2⟩

/-- Helper: the level of the configured logger is the resolution of the
`LOG_LEVEL` environment value, in both branches of `setup_logger`. -/
theorem setup_logger_level_eq (env : Option String) (prev : Logger)
    (cmd : Option String) (nowE : Int) (today : DateTime) (fs : FS)
    (u : FileEntry → Bool) :
    (setup_logger env prev cmd nowE today fs u).logger.level =
      resolveLogLevel env := by
  cases h : truthy cmd <;> simp [setup_logger, h]

/-- C2: the configured logger's threshold is the level named by the
trimmed, upper-cased `LOG_LEVEL` value when that is one of the five
level names, and INFO for every other value and for an absent
variable; resolution is total, so no error is possible. -/
theorem setup_logger_level_from_env (env : Option String) (prev : Logger)
    (cmd : Option String) (nowE : Int) (today : DateTime) (fs : FS)
    (u : FileEntry → Bool) :
    (pyUpper (pyStrip (env.getD "INFO")) = "DEBUG" →
      (setup_logger env prev cmd nowE today fs u).logger.level = DEBUG) ∧
    (pyUpper (pyStrip (env.getD "INFO")) = "INFO" →
      (setup_logger env prev cmd nowE today fs u).logger.level = INFO) ∧
    (pyUpper (pyStrip (env.getD "INFO")) = "WARNING" →
      (setup_logger env prev cmd nowE today fs u).logger.level = WARNING) ∧
    (pyUpper (pyStrip (env.getD "INFO")) = "ERROR" →
      (setup_logger env prev cmd nowE today fs u).logger.level = ERROR) ∧
    (pyUpper (pyStrip (env.getD "INFO")) = "CRITICAL" →
      (setup_logger env prev cmd nowE today fs u).logger.level = CRITICAL) ∧
    (pyUpper (pyStrip (env.getD "INFO")) ∉
        (["DEBUG", "INFO", "WARNING", "ERROR", "CRITICAL"] : List String) →
      (setup_logger env prev cmd nowE today fs u).logger.level = INFO) ∧
    (env = none →
      (setup_logger env prev cmd nowE today fs u).logger.level = INFO) := by
  rw [setup_logger_level_eq]
  refine ⟨fun h => ?_, fun h => ?_, fun h => ?_, fun h => ?_, fun h => ?_,
    fun h => ?_, fun h => ?_⟩
  · simp [resolveLogLevel, log_levels, List.lookup, h]
  · simp [resolveLogLevel, log_levels, List.lookup, h]
  · simp [resolveLogLevel, log_levels, List.lookup, h]
  · simp [resolveLogLevel, log_levels, List.lookup, h]
  · simp [resolveLogLevel, log_levels, List.lookup, h]
  · simp only [List.mem_cons, List.not_mem_nil, or_false, not_or] at h
    obtain ⟨h1, h2, h3, h4, h5⟩ := h
    have e1 := beq_eq_false_iff_ne.mpr h1
    have e2 := beq_eq_false_iff_ne.mpr h2
    have e3 := beq_eq_false_iff_ne.mpr h3
    have e4 := beq_eq_false_iff_ne.mpr h4
    have e5 := beq_eq_false_iff_ne.mpr h5
    simp [resolveLogLevel, log_levels, List.lookup, e1, e2, e3, e4, e5]
  · subst h
    decide

/-- Witness for C2: a padded mixed-case value selects DEBUG, an
unrecognized value and an absent variable select INFO. -/
theorem setup_logger_level_from_env_witness :
    pyUpper (pyStrip ((some " debug " : Option String).getD "INFO")) = "DEBUG" ∧
    (setup_logger (some " debug ") L0 none 0 d0 fs0 fun _ => true).logger.level
      = DEBUG ∧
    (setup_logger (some "Bogus") L0 none 0 d0 fs0 fun _ => true).logger.level
      = INFO ∧
    (setup_logger none L0 none 0 d0 fs0 fun _ => true).logger.level = INFO :=
  ⟨by decide,
   (setup_logger_level_from_env (some " debug ") L0 none 0 d0 fs0
      fun _ => true).1 (by decide),
   (setup_logger_level_from_env (some "Bogus") L0 none 0 d0 fs0
      fun _ => true).2.2.2.2.2.1 (by decide),
   (setup_logger_level_from_env none L0 none 0 d0 fs0
      fun _ => true).2.2.2.2.2.2 rfl⟩

/-- C3: whatever handlers the logger had before the call, after
`setup_logger` it carries exactly one console sink and exactly one file
sink when the command identifier is truthy (none otherwise); moreover
the resulting logger does not depend on the prior logger state at all,
so repeated reconfiguration can never accumulate sinks. -/
theorem setup_logger_sinks_no_accumulation (env : Option String)
    (prev : Logger) (cmd : Option String) (nowE : Int) (today : DateTime)
    (fs : FS) (u : FileEntry → Bool) :
    List.countP isConsoleSink
        (setup_logger env prev cmd nowE today fs u).logger.handlers = 1 ∧
    List.countP isFileSink
        (setup_logger env prev cmd nowE today fs u).logger.handlers =
      (if truthy cmd then 1 else 0) ∧
    (∀ prev2 : Logger,
      (setup_logger env prev2 cmd nowE today fs u).logger =
        (setup_logger env prev cmd nowE today fs u).logger) := by
  refine ⟨?_, ?_, fun prev2 => ?_⟩ <;>
    cases h : truthy cmd <;>
      simp [setup_logger, h, isConsoleSink, isFileSink, List.countP_cons]

/-- C4: a record whose level name is one of the five of `LEVEL_MAP`
renders as the local timestamp with millisecond precision
(`YYYY-MM-DD HH:MM:SS.mmm`), the single-character code in brackets and
the message, in the shape `timestamp [code] : message`. -/
theorem formatRecord_shape (r : LogRecord) (code : String)
    (h : LEVEL_MAP.lookup r.levelname = some code) :
    formatRecord r =
      padNum 4 r.year ++ "-" ++ padNum 2 r.month ++ "-" ++ padNum 2 r.day ++
        " " ++ padNum 2 r.hour ++ ":" ++ padNum 2 r.minute ++ ":" ++
        padNum 2 r.second ++ "." ++ padNum 3 r.msecs ++ " [" ++ code ++
        "] : " ++ r.message := by
  simp [formatRecord, formatTime, levelnameShort, h]

/-- Witness for C4, at the spec's example: a WARNING record created at
local time 2024-01-15 10:30:00.123 renders with code `W`. -/
theorem formatRecord_shape_witness :
    formatRecord recW = "2024-01-15 10:30:00.123 [W] : msg" := by
  rw [formatRecord_shape recW "W" (by decide)]
  decide

/-- C5: with a non-empty command identifier the configured logger
carries the console sink and a file sink on
`logs/{command}-{YYYYMMDD}.log` in append mode with UTF-8 encoding, at
the same threshold and with the same formatter as the console sink; the
`logs` directory exists afterwards, and the trace records the opening
of that file. -/
theorem setup_logger_file_sink (env : Option String) (prev : Logger)
    (c : String) (nowE : Int) (today : DateTime) (fs : FS)
    (u : FileEntry → Bool) (hc : c ≠ "") :
    (setup_logger env prev (some c) nowE today fs u).logger.handlers =
      [Sink.console (resolveLogLevel env) customFormatter,
       Sink.file ("logs" ++ "/" ++ (c ++ "-" ++ strftimeYMD today ++ ".log"))
         "a" "utf-8" (resolveLogLevel env) customFormatter] ∧
    "logs" ∈ (setup_logger env prev (some c) nowE today fs u).fs.dirs ∧
    FsEvent.openFile ("logs" ++ "/" ++ (c ++ "-" ++ strftimeYMD today ++ ".log"))
        "a" "utf-8" ∈ (setup_logger env prev (some c) nowE today fs u).trace := by
  have ht : truthy (some c) = true := by simp [truthy, hc]
  refine ⟨?_, ?_, ?_⟩ <;> simp [setup_logger, ht, touchFile, cleanup_old_logs, makedirs]
  · split <;> simp [makedirs] <;> split <;> simp_all

/-- Witness for C5: command identifier `analyze` on 2024-01-15 yields a
file sink on `logs/analyze-20240115.log`. -/
theorem setup_logger_file_sink_witness :
    (setup_logger none L0 (some "analyze") 864000 d0 fs0
        fun _ => true).logger.handlers =
      [Sink.console INFO customFormatter,
       Sink.file "logs/analyze-20240115.log" "a" "utf-8" INFO customFormatter] ∧
    "logs" ∈ (setup_logger none L0 (some "analyze") 864000 d0 fs0
        fun _ => true).fs.dirs := by
  have h := setup_logger_file_sink none L0 "analyze" 864000 d0 fs0
    (fun _ => true) (by decide)
  exact ⟨h.1.trans (by decide), h.2.1⟩

/-- C8: when the command identifier is `None` or empty, `setup_logger`
leaves the filesystem unchanged and performs no filesystem operation at
all. -/
theorem setup_logger_no_command_no_fs_change (env : Option String)
    (prev : Logger) (cmd : Option String) (nowE : Int) (today : DateTime)
    (fs : FS) (u : FileEntry → Bool) (h : cmd = none ∨ cmd = some "") :
    (setup_logger env prev cmd nowE today fs u).fs = fs ∧
    (setup_logger env prev cmd nowE today fs u).trace = [] := by
  have ht : truthy cmd = false := by rcases h with h | h <;> simp [h, truthy]
  simp [setup_logger, ht]

/-- Witness for C8: a call without command identifier on a populated
filesystem touches nothing. -/
theorem setup_logger_no_command_no_fs_change_witness :
    (setup_logger none L0 none 864000 d0 fsW fun _ => true).fs = fsW ∧
    (setup_logger none L0 none 864000 d0 fsW fun _ => true).trace = [] :=
  setup_logger_no_command_no_fs_change none L0 none 864000 d0 fsW
    (fun _ => true) (Or.inl rfl)

/-- C9: with a truthy command identifier the filesystem trace of
`setup_logger` is exactly directory creation, then the cleanup pass,
then the opening of the day's log file: the reaper runs strictly before
the file handle is opened. -/
theorem setup_logger_cleanup_before_open (env : Option String) (prev : Logger)
    (cmd : Option String) (nowE : Int) (today : DateTime) (fs : FS)
    (u : FileEntry → Bool) (hc : truthy cmd = true) :
    (setup_logger env prev cmd nowE today fs u).trace =
      [FsEvent.makedirs "logs",
       FsEvent.cleanup "logs" 7,
       FsEvent.openFile
         ("logs" ++ "/" ++ (cmd.getD "" ++ "-" ++ strftimeYMD today ++ ".log"))
         "a" "utf-8"] := by
  simp [setup_logger, hc]

/-- Witness for C9: the concrete trace of an `analyze` configuration. -/
theorem setup_logger_cleanup_before_open_witness :
    (setup_logger none L0 (some "analyze") 864000 d0 fsW
        fun _ => true).trace =
      [FsEvent.makedirs "logs", FsEvent.cleanup "logs" 7,
       FsEvent.openFile "logs/analyze-20240115.log" "a" "utf-8"] :=
  (setup_logger_cleanup_before_open none L0 (some "analyze") 864000 d0 fsW
    (fun _ => true) (by decide)).trans (by decide)

/-- C10: `get_logger` is extensionally equal to `setup_logger` on every
argument tuple: the public entry point reconfigures (and thereby
rebuilds the sinks of) the logger on every call instead of returning a
cached handle. -/
theorem get_logger_eq_setup_logger (env : Option String) (prev : Logger)
    (cmd : Option String) (nowE : Int) (today : DateTime) (fs : FS)
    (u : FileEntry → Bool) :
    get_logger env prev cmd nowE today fs u =
      setup_logger env prev cmd nowE today fs u := rfl

end LoggerSpec
